import Mathlib

/-
Shallow embedding of the habit-tracker application (src/app.py).

The scoring engine (compute_scores, app.py:243-269), the feedback
derivation (build_feedback, app.py:272-290), the history update
(update_history_if_needed, app.py:293-302), the check-in action
(render_checkin_actions, app.py:433-462), the report gate
(render_ai_report, app.py:543-566) and the water-cup counter controls
(render_checkin_tabs, app.py:344-353) are translated into executable
Lean definitions; the theorems below settle the specification claims
about them.
-/

/-- Sleep-duration buckets, the radio options "5↓","6","7","8","9+"
(app.py:389). -/
inductive SleepHours
  | h5down
  | h6
  | h7
  | h8
  | h9plus
deriving DecidableEq, Fintype

/-- Sleep-quality buckets, the radio options "😪 낮음","🙂 보통","😴 좋음"
(app.py:391). -/
inductive SleepQuality
  | low
  | medium
  | good
deriving DecidableEq, Fintype

/-- Wake-time buckets, the radio options "🌅 6시대","☀️ 7시대","☁️ 8시대",
"🌤️ 9시+" (app.py:397). -/
inductive WakeTime
  | t6
  | t7
  | t8
  | t9plus
deriving DecidableEq, Fintype

/-- Wake-routine tags, the three toggle buttons wash/bed/clean
(app.py:400). -/
inductive RoutineTag
  | wash
  | bed
  | clean
deriving DecidableEq, Fintype

/-- The five habit categories, in the insertion order of the per_scores
dict "물","운동","공부","수면","기상" (app.py:268). -/
inductive Category
  | water
  | exercise
  | study
  | sleep
  | wake
deriving DecidableEq, Fintype

/-- Round a/b to the nearest integer, ties to even.  Python's round()
rounds half to even; int(round(x)) is the identity on the int round()
already returns. -/
def round_half_even (a b : Nat) : Nat :=
  if 2 * (a % b) < b then a / b
  else if b < 2 * (a % b) then a / b + 1
  else if (a / b) % 2 = 0 then a / b else a / b + 1

/-- water_goal = 8 (app.py:244). -/
def water_goal : Nat := 8

/-- min(int(round(water_cups / water_goal * 20)), 20) (app.py:245).
water_cups / 8 * 20 equals 5 * water_cups / 2; the float computation is
exact for water_cups ≤ 8 (dyadic values) and for larger water_cups both
the float and the exact rounding are at least 20, so the min clamp makes
the Nat model agree with the Python float computation everywhere. -/
def water_score (water_cups : Nat) : Nat :=
  min (round_half_even (5 * water_cups) 2) 20

/-- min(int(round(exercise_minutes / 30 * 20)), 20) (app.py:246).
exercise_minutes / 30 * 20 equals 2 * exercise_minutes / 3, whose exact
value is never a half-integer (its distance from one is at least 1/6,
far above float error), so Python's round here is plain
round-to-nearest, which round_half_even also computes. -/
def exercise_score (exercise_minutes : Nat) : Nat :=
  min (round_half_even (2 * exercise_minutes) 3) 20

/-- min(study_pomodoros * 5, 20) (app.py:247). -/
def study_score (study_pomodoros : Nat) : Nat :=
  min (study_pomodoros * 5) 20

/-- sleep_base lookup table {"5↓": 5, "6": 10, "7": 20, "8": 20, "9+": 15}
(app.py:249). -/
def sleep_base : SleepHours → Nat
  | .h5down => 5
  | .h6 => 10
  | .h7 => 20
  | .h8 => 20
  | .h9plus => 15

/-- sleep_quality_bonus lookup table {"😪 낮음": 0, "🙂 보통": 2, "😴 좋음": 4}
(app.py:250). -/
def sleep_quality_bonus : SleepQuality → Nat
  | .low => 0
  | .medium => 2
  | .good => 4

/-- sleep_score = min(sleep_base + sleep_quality_bonus, 20) (app.py:251). -/
def sleep_score (h : SleepHours) (q : SleepQuality) : Nat :=
  min (sleep_base h + sleep_quality_bonus q) 20

/-- wake_time_score lookup table {"🌅 6시대": 20, "☀️ 7시대": 18,
"☁️ 8시대": 12, "🌤️ 9시+": 8} (app.py:253). -/
def wake_time_score : WakeTime → Nat
  | .t6 => 20
  | .t7 => 18
  | .t8 => 12
  | .t9plus => 8

/-- wake_score = 0, overwritten with min(wake_time_score + len(wake_routines), 20)
when wake_success (app.py:254-256). -/
def wake_score (success : Bool) (t : WakeTime) (routines : Finset RoutineTag) : Nat :=
  if success then min (wake_time_score t + routines.card) 20 else 0

/-- The per-habit completion dict built by compute_scores (app.py:260-266),
keys "물 마시기","운동하기","공부/독서","수면","기상 미션". -/
structure Completion where
  water : Bool
  exercise : Bool
  study : Bool
  sleep : Bool
  wake : Bool
deriving DecidableEq

/-- The mutable working state for today that compute_scores reads from
st.session_state (app.py:211-233): counters are non-negative integers,
bucket fields range over their enumerated labels, wake_routines is a
subset of the three routine tags.  mood_score and daily_note are carried
along because the check-in action snapshots them. -/
structure DailyInputs where
  water_cups : Nat
  exercise_minutes : Nat
  study_pomodoros : Nat
  sleep_hours : SleepHours
  sleep_quality : SleepQuality
  wake_success : Bool
  wake_time : WakeTime
  wake_routines : Finset RoutineTag
  mood_score : Nat
  daily_note : String
deriving DecidableEq

/-- compute_scores (app.py:243-269): returns (total_score, per_scores,
completion).  per_scores is the dict {"물","운동","공부","수면","기상"}
in insertion order, modelled as an association list. -/
def compute_scores (i : DailyInputs) : Nat × List (Category × Nat) × Completion :=
  let ws := water_score i.water_cups
  let es := exercise_score i.exercise_minutes
  let ss := study_score i.study_pomodoros
  let sl := sleep_score i.sleep_hours i.sleep_quality
  let wk := wake_score i.wake_success i.wake_time i.wake_routines
  let total := ws + es + ss + sl + wk
  let completion : Completion :=
    { water := decide (i.water_cups ≥ water_goal)
      exercise := decide (i.exercise_minutes ≥ 20)
      study := decide (i.study_pomodoros ≥ 1)
      sleep := decide (sl ≥ 15)
      wake := i.wake_success }
  (total,
   [(Category.water, ws), (Category.exercise, es), (Category.study, ss),
    (Category.sleep, sl), (Category.wake, wk)],
   completion)

/-- Helper bound: round_half_even a b is at least a / b. -/
theorem round_half_even_ge_div (a b : Nat) : a / b ≤ round_half_even a b := by
  unfold round_half_even
  split_ifs <;> omega

/-- Helper bound: a sub-score of the form min x 20 is at most 20, and the
wake score is as well. -/
theorem wake_score_le (success : Bool) (t : WakeTime) (r : Finset RoutineTag) :
    wake_score success t r ≤ 20 := by
  unfold wake_score
  split_ifs
  · exact Nat.min_le_right _ 20
  · exact Nat.zero_le _

/-- C1: for every DailyInputs value in its documented domain, each of the
five sub-scores returned by compute_scores is in [0, 20], the total score
is in [0, 100], and the total score equals the exact sum of the five
sub-scores. -/
theorem c1_scores_bounded_and_sum (i : DailyInputs) :
    (compute_scores i).2.1 =
      [(Category.water, water_score i.water_cups),
       (Category.exercise, exercise_score i.exercise_minutes),
       (Category.study, study_score i.study_pomodoros),
       (Category.sleep, sleep_score i.sleep_hours i.sleep_quality),
       (Category.wake, wake_score i.wake_success i.wake_time i.wake_routines)] ∧
    water_score i.water_cups ≤ 20 ∧
    exercise_score i.exercise_minutes ≤ 20 ∧
    study_score i.study_pomodoros ≤ 20 ∧
    sleep_score i.sleep_hours i.sleep_quality ≤ 20 ∧
    wake_score i.wake_success i.wake_time i.wake_routines ≤ 20 ∧
    (compute_scores i).1 ≤ 100 ∧
    (compute_scores i).1 =
      water_score i.water_cups + exercise_score i.exercise_minutes +
      study_score i.study_pomodoros + sleep_score i.sleep_hours i.sleep_quality +
      wake_score i.wake_success i.wake_time i.wake_routines := by
  have hw : water_score i.water_cups ≤ 20 := Nat.min_le_right _ 20
  have he : exercise_score i.exercise_minutes ≤ 20 := Nat.min_le_right _ 20
  have hs : study_score i.study_pomodoros ≤ 20 := Nat.min_le_right _ 20
  have hl : sleep_score i.sleep_hours i.sleep_quality ≤ 20 := Nat.min_le_right _ 20
  have hk : wake_score i.wake_success i.wake_time i.wake_routines ≤ 20 :=
    wake_score_le _ _ _
  refine ⟨rfl, hw, he, hs, hl, hk, ?_, rfl⟩
  show water_score i.water_cups + exercise_score i.exercise_minutes +
      study_score i.study_pomodoros + sleep_score i.sleep_hours i.sleep_quality +
      wake_score i.wake_success i.wake_time i.wake_routines ≤ 100
  omega

/-- C7: the sleep sub-score equals clamp(base + bonus, 0, 20), with the
base table mapping the five duration buckets to 5, 10, 20, 20, 15 and the
bonus table mapping the three quality buckets to 0, 2, 4; bucket "7" with
medium quality gives 20 + 2 clamped to 20. -/
theorem c7_sleep_score_table :
    (∀ (h : SleepHours) (q : SleepQuality),
      sleep_score h q = min (max (sleep_base h + sleep_quality_bonus q) 0) 20) ∧
    sleep_base .h5down = 5 ∧ sleep_base .h6 = 10 ∧ sleep_base .h7 = 20 ∧
    sleep_base .h8 = 20 ∧ sleep_base .h9plus = 15 ∧
    sleep_quality_bonus .low = 0 ∧ sleep_quality_bonus .medium = 2 ∧
    sleep_quality_bonus .good = 4 ∧
    sleep_base .h7 + sleep_quality_bonus .medium = 22 ∧
    sleep_score .h7 .medium = 20 := by
  decide

/-- Helper: the water score saturates at 20 from 8 cups on. -/
theorem water_score_saturates (c : Nat) (h : 8 ≤ c) : water_score c = 20 := by
  have h1 : 20 ≤ (5 * c) / 2 := by omega
  have h2 : 20 ≤ round_half_even (5 * c) 2 :=
    le_trans h1 (round_half_even_ge_div (5 * c) 2)
  unfold water_score
  omega

/-- Helper: round_half_even is monotone in the numerator for denominator 2. -/
theorem round_half_even_two_mono {m n : Nat} (h : m ≤ n) :
    round_half_even m 2 ≤ round_half_even n 2 := by
  induction n, h using Nat.le_induction with
  | base => exact le_rfl
  | succ n hmn ih =>
    refine le_trans ih ?_
    unfold round_half_even
    split_ifs <;> omega

/-- C8: the water sub-score is monotonically non-decreasing in water_cups
and saturates at 20 for every water_cups ≥ 8; water_cups = 8 gives 20,
water_cups = 4 gives 10 and water_cups = 0 gives 0. -/
theorem c8_water_monotone_saturating :
    (∀ a b : Nat, a ≤ b → water_score a ≤ water_score b) ∧
    (∀ c : Nat, 8 ≤ c → water_score c = 20) ∧
    water_score 8 = 20 ∧ water_score 4 = 10 ∧ water_score 0 = 0 := by
  refine ⟨?_, fun c hc => water_score_saturates c hc, by decide, by decide, by decide⟩
  intro a b hab
  have h5 : 5 * a ≤ 5 * b := by omega
  exact min_le_min (round_half_even_two_mono h5) le_rfl

/-- C8 witness: the monotonicity and saturation parts instantiated at
concrete cup counts. -/
theorem c8_witness :
    (3 : Nat) ≤ 5 ∧ water_score 3 ≤ water_score 5 ∧
    (8 : Nat) ≤ 11 ∧ water_score 11 = 20 := by
  refine ⟨by decide, c8_water_monotone_saturating.1 3 5 (by decide),
    by decide, c8_water_monotone_saturating.2.1 11 (by decide)⟩

/-- C6: the completion map equals exactly the documented threshold tests:
water ↦ water_cups ≥ 8, exercise ↦ exercise_minutes ≥ 20, study ↦
study_units ≥ 1, sleep ↦ sleep_score ≥ 15, wake ↦ the wake-success flag;
water_cups = 8 yields water completion true and water_cups = 7 false. -/
theorem c6_completion_thresholds (i : DailyInputs) :
    ((compute_scores i).2.2.water = true ↔ 8 ≤ i.water_cups) ∧
    ((compute_scores i).2.2.exercise = true ↔ 20 ≤ i.exercise_minutes) ∧
    ((compute_scores i).2.2.study = true ↔ 1 ≤ i.study_pomodoros) ∧
    ((compute_scores i).2.2.sleep = true ↔
      15 ≤ sleep_score i.sleep_hours i.sleep_quality) ∧
    (compute_scores i).2.2.wake = i.wake_success ∧
    (compute_scores
      { i with water_cups := 8 }).2.2.water = true ∧
    (compute_scores
      { i with water_cups := 7 }).2.2.water = false := by
  refine ⟨?_, ?_, ?_, ?_, rfl, ?_, ?_⟩ <;>
    simp [compute_scores, water_goal]

/-- Canned improvement-mission strings (app.py:279-287). -/
def mission_water : String := "🥛 물 6컵 이상 챙기기"

/-- Canned exercise mission (app.py:281). -/
def mission_exercise : String := "🏃 20분 이상 가볍게 움직이기"

/-- Canned study mission (app.py:283). -/
def mission_study : String := "🍅 포모도로 1회 달성"

/-- Canned sleep mission (app.py:285). -/
def mission_sleep : String := "😴 7~8시간 수면 시도"

/-- Canned wake mission (app.py:287). -/
def mission_wake : String := "⏰ 7시대 기상에 도전"

/-- The generic leave-a-note suggestion appended once (app.py:288). -/
def mission_generic : String := "✅ 오늘 기록 간단 메모 남기기"

/-- The per_scores dict as the ordered association list
[("물", w), ("운동", e), ("공부", s), ("수면", sl), ("기상", wk)]
(app.py:268); Python dicts iterate in insertion order. -/
def per_scores_list (w e s sl wk : Nat) : List (Category × Nat) :=
  [(Category.water, w), (Category.exercise, e), (Category.study, s),
   (Category.sleep, sl), (Category.wake, wk)]

/-- Stable insertion of one entry into a descending-by-score list: walk
past entries with strictly greater score and land before the first entry
with score less than or equal.  Equal scores therefore stay in original
relative order, which is exactly the stability guarantee of Python's
sorted(..., key=lambda item: item[1], reverse=True) (app.py:273). -/
def insert_desc (x : Category × Nat) : List (Category × Nat) → List (Category × Nat)
  | [] => [x]
  | y :: ys => if x.2 < y.2 then y :: insert_desc x ys else x :: y :: ys

/-- Stable descending sort by score, modelling
sorted(per_scores.items(), key=lambda item: item[1], reverse=True)
(app.py:273). -/
def sort_desc : List (Category × Nat) → List (Category × Nat)
  | [] => []
  | x :: xs => insert_desc x (sort_desc xs)

/-- build_feedback (app.py:272-290): returns (top_two, bottom, missions).
top_two = sorted_scores[:2]; bottom = sorted_scores[-1] (the list always
has five entries, so the getD default is never used); missions collects
the canned suggestion of every category whose sub-score is below its
threshold, in the fixed order water, exercise, study, sleep, wake, then
appends the generic suggestion once and truncates to the first three.
The dict accesses per_scores["물"] etc. are the five arguments. -/
def build_feedback (w e s sl wk : Nat) :
    List (Category × Nat) × (Category × Nat) × List String :=
  let sorted_scores := sort_desc (per_scores_list w e s sl wk)
  let top_two := sorted_scores.take 2
  let bottom := sorted_scores.getLast?.getD (Category.water, 0)
  let missions :=
    (if w < 15 then [mission_water] else []) ++
    (if e < 15 then [mission_exercise] else []) ++
    (if s < 10 then [mission_study] else []) ++
    (if sl < 15 then [mission_sleep] else []) ++
    (if wk < 15 then [mission_wake] else [])
  (top_two, bottom, (missions ++ [mission_generic]).take 3)

/-- Per-category improvement threshold as the claim lists them:
15, 15, 10, 15, 15 in canonical order. -/
def category_threshold : Category → Nat
  | .water => 15
  | .exercise => 15
  | .study => 10
  | .sleep => 15
  | .wake => 15

/-- Per-category canned suggestion. -/
def category_mission : Category → String
  | .water => mission_water
  | .exercise => mission_exercise
  | .study => mission_study
  | .sleep => mission_sleep
  | .wake => mission_wake

/-- The claim's own description of the triggered-mission list: test the
five sub-scores in canonical order against their thresholds and keep the
canned suggestion of each category scoring strictly below. -/
def missions_of_spec (w e s sl wk : Nat) : List String :=
  (per_scores_list w e s sl wk).filterMap fun p =>
    if p.2 < category_threshold p.1 then some (category_mission p.1) else none

/-- Number of categories whose sub-score is strictly below its threshold. -/
def triggered_count (w e s sl wk : Nat) : Nat :=
  (missions_of_spec w e s sl wk).length

/-- C2 counterexample: when no category is below its threshold (all five
sub-scores 20, a reachable perfect day), the missions list is the single
generic suggestion, so it does not have exactly 3 entries as the claim
states. -/
theorem c2_counterexample :
    (build_feedback 20 20 20 20 20).2.2 = [mission_generic] ∧
    (build_feedback 20 20 20 20 20).2.2.length = 1 ∧
    ¬ (build_feedback 20 20 20 20 20).2.2.length = 3 := by
  refine ⟨rfl, rfl, by decide⟩

/-- C2 amended: the missions list is the triggered canned suggestions in
the fixed order water, exercise, study, sleep, wake (thresholds
15, 15, 10, 15, 15), followed by the generic leave-a-note suggestion
appended exactly once, truncated to the first three entries; its length
is min(triggered + 1, 3), which is 3 only when at least two categories
triggered. -/
theorem c2_missions_amended (w e s sl wk : Nat) :
    (build_feedback w e s sl wk).2.2 =
      (missions_of_spec w e s sl wk ++ [mission_generic]).take 3 ∧
    (build_feedback w e s sl wk).2.2.length =
      min (triggered_count w e s sl wk + 1) 3 := by
  have hm : missions_of_spec w e s sl wk =
      (if w < 15 then [mission_water] else []) ++
      (if e < 15 then [mission_exercise] else []) ++
      (if s < 10 then [mission_study] else []) ++
      (if sl < 15 then [mission_sleep] else []) ++
      (if wk < 15 then [mission_wake] else []) := by
    by_cases h1 : w < 15 <;> by_cases h2 : e < 15 <;> by_cases h3 : s < 10 <;>
      by_cases h4 : sl < 15 <;> by_cases h5 : wk < 15 <;>
      simp [missions_of_spec, per_scores_list, category_threshold,
        category_mission, h1, h2, h3, h4, h5]
  have hfb : (build_feedback w e s sl wk).2.2 =
      (missions_of_spec w e s sl wk ++ [mission_generic]).take 3 := by
    rw [hm]
    rfl
  refine ⟨hfb, ?_⟩
  rw [hfb, List.length_take, List.length_append, List.length_singleton,
    triggered_count, Nat.min_comm]

/-- Canonical position of each category: water, exercise, study, sleep,
wake — the insertion order of the per_scores dict. -/
def cat_idx : Category → Nat
  | .water => 0
  | .exercise => 1
  | .study => 2
  | .sleep => 3
  | .wake => 4

/-- x ranks strictly before y in the feedback ordering: strictly higher
score, or equal score and canonically earlier category. -/
def rank_before (x y : Category × Nat) : Prop :=
  y.2 < x.2 ∨ (x.2 = y.2 ∧ cat_idx x.1 < cat_idx y.1)

instance rank_before_dec (x y : Category × Nat) : Decidable (rank_before x y) := by
  unfold rank_before
  infer_instance

/-- Membership in an insertion is membership in the inserted element or
the original list. -/
theorem mem_insert_desc {z x : Category × Nat} {l : List (Category × Nat)} :
    z ∈ insert_desc x l ↔ z = x ∨ z ∈ l := by
  induction l with
  | nil => simp [insert_desc]
  | cons y ys ih =>
    unfold insert_desc
    split_ifs
    · simp only [List.mem_cons, ih]
      tauto
    · simp only [List.mem_cons]

/-- insert_desc permutes the element onto the list. -/
theorem insert_desc_perm (x : Category × Nat) (l : List (Category × Nat)) :
    (insert_desc x l).Perm (x :: l) := by
  induction l with
  | nil => exact List.Perm.refl _
  | cons y ys ih =>
    unfold insert_desc
    split_ifs
    · exact (ih.cons y).trans (List.Perm.swap x y ys)
    · exact List.Perm.refl _

/-- sort_desc is a permutation of its input. -/
theorem sort_desc_perm (l : List (Category × Nat)) : (sort_desc l).Perm l := by
  induction l with
  | nil => exact List.Perm.refl _
  | cons x xs ih =>
    exact (insert_desc_perm x (sort_desc xs)).trans (ih.cons x)

/-- Inserting an element whose category is canonically earlier than every
category already present preserves the strict ranking order. -/
theorem pairwise_insert_desc {x : Category × Nat} {l : List (Category × Nat)}
    (hl : l.Pairwise rank_before)
    (hx : ∀ y ∈ l, cat_idx x.1 < cat_idx y.1) :
    (insert_desc x l).Pairwise rank_before := by
  induction l with
  | nil => simp [insert_desc]
  | cons y ys ih =>
    rw [List.pairwise_cons] at hl
    obtain ⟨hy, hys⟩ := hl
    unfold insert_desc
    split_ifs with hcmp
    · refine List.pairwise_cons.mpr ⟨?_, ?_⟩
      · intro z hz
        rcases mem_insert_desc.mp hz with rfl | hz2
        · exact Or.inl hcmp
        · exact hy z hz2
      · exact ih hys fun z hz => hx z (List.mem_cons_of_mem y hz)
    · refine List.pairwise_cons.mpr ⟨?_, List.pairwise_cons.mpr ⟨hy, hys⟩⟩
      intro z hz
      rcases List.mem_cons.mp hz with rfl | hz2
      · rcases Nat.lt_or_ge z.2 x.2 with h | h
        · exact Or.inl h
        · exact Or.inr ⟨by omega, hx z (List.mem_cons_self z ys)⟩
      · rcases hy z hz2 with h | ⟨h1, h2⟩
        · rcases Nat.lt_or_ge z.2 x.2 with h3 | h3
          · exact Or.inl h3
          · have : y.2 ≤ x.2 := Nat.not_lt.mp hcmp
            omega
        · rcases Nat.lt_or_ge z.2 x.2 with h3 | h3
          · exact Or.inl h3
          · refine Or.inr ⟨by omega, hx z (List.mem_cons_of_mem y hz2)⟩

/-- Sorting a list whose categories appear in strictly increasing
canonical order yields a list strictly ordered by rank_before: scores
weakly decreasing, equal scores in canonical order. -/
theorem pairwise_sort_desc {l : List (Category × Nat)}
    (h : l.Pairwise fun a b => cat_idx a.1 < cat_idx b.1) :
    (sort_desc l).Pairwise rank_before := by
  induction l with
  | nil => simp [sort_desc]
  | cons x xs ih =>
    rw [List.pairwise_cons] at h
    obtain ⟨hx, hxs⟩ := h
    refine pairwise_insert_desc (ih hxs) ?_
    intro y hy
    exact hx y ((sort_desc_perm xs).mem_iff.mp hy)

/-- In a list strictly ordered by a relation, every element is the last
element or ranks before it. -/
theorem pairwise_last_min {R : (Category × Nat) → (Category × Nat) → Prop}
    {l : List (Category × Nat)} {b : Category × Nat}
    (hp : l.Pairwise R) (hb : l.getLast? = some b) :
    ∀ p ∈ l, p = b ∨ R p b := by
  induction l with
  | nil => intro p hp2; cases hp2
  | cons x xs ih =>
    rw [List.pairwise_cons] at hp
    obtain ⟨hx, hxs⟩ := hp
    intro p hpmem
    cases xs with
    | nil =>
      simp only [List.getLast?_singleton, Option.some.injEq] at hb
      rcases List.mem_singleton.mp hpmem with rfl
      exact Or.inl hb
    | cons y ys =>
      rw [List.getLast?_cons_cons] at hb
      rcases List.mem_cons.mp hpmem with rfl | hpm2
      · have hbmem : b ∈ y :: ys :=
          List.mem_of_mem_getLast? (Option.mem_def.mpr hb)
        exact Or.inr (hx b hbmem)
      · exact ih hxs hb p hpm2

/-- C3 counterexample: with all five sub-scores equal (all 10), the weak
point returned by build_feedback is the wake category, the canonically
last tied-lowest category, not the canonically first (water) as the
claim states. -/
theorem c3_counterexample :
    (build_feedback 10 10 10 10 10).2.1 = (Category.wake, 10) ∧
    (build_feedback 10 10 10 10 10).2.1.1 ≠ Category.water ∧
    (build_feedback 10 10 10 10 10).1 =
      [(Category.water, 10), (Category.exercise, 10)] := by
  refine ⟨rfl, by decide, rfl⟩

/-- C3 amended: build_feedback ranks the five sub-scores descending with
ties broken by the canonical category order (the sorted list is a
permutation of the per-score entries, strictly ordered by rank_before);
the strengths are the first two entries of that ranking and the weak
point is its last entry — so among equal-lowest scores the weak point is
the canonically last such category, every other entry ranking strictly
before it. -/
theorem c3_ranking_amended (w e s sl wk : Nat) :
    (sort_desc (per_scores_list w e s sl wk)).Perm (per_scores_list w e s sl wk) ∧
    (sort_desc (per_scores_list w e s sl wk)).Pairwise rank_before ∧
    (build_feedback w e s sl wk).1 =
      (sort_desc (per_scores_list w e s sl wk)).take 2 ∧
    (build_feedback w e s sl wk).2.1 =
      (sort_desc (per_scores_list w e s sl wk)).getLast?.getD (Category.water, 0) ∧
    (∀ p ∈ sort_desc (per_scores_list w e s sl wk),
      p = (build_feedback w e s sl wk).2.1 ∨
        rank_before p (build_feedback w e s sl wk).2.1) := by
  have hperm := sort_desc_perm (per_scores_list w e s sl wk)
  have hpw : (sort_desc (per_scores_list w e s sl wk)).Pairwise rank_before := by
    refine pairwise_sort_desc ?_
    simp [per_scores_list, List.pairwise_cons, cat_idx]
  have hne : sort_desc (per_scores_list w e s sl wk) ≠ [] := by
    intro hnil
    have := hperm.length_eq
    rw [hnil] at this
    simp [per_scores_list] at this
  obtain ⟨b, hb⟩ := Option.isSome_iff_exists.mp
    (List.getLast?_isSome.mpr hne)
  refine ⟨hperm, hpw, rfl, rfl, ?_⟩
  intro p hp
  have hbot : (build_feedback w e s sl wk).2.1 = b := by
    show (sort_desc (per_scores_list w e s sl wk)).getLast?.getD (Category.water, 0) = b
    rw [hb]
    rfl
  rw [hbot]
  exact pairwise_last_min hpw hb p hp

/-- C3 witness: the ranking facts instantiated at the all-tied score map;
the water entry is a member of the ranking and ranks strictly before the
weak point (which is the wake entry). -/
theorem c3_witness :
    (Category.water, 10) ∈ sort_desc (per_scores_list 10 10 10 10 10) ∧
    ((Category.water, 10) = (build_feedback 10 10 10 10 10).2.1 ∨
      rank_before (Category.water, 10) (build_feedback 10 10 10 10 10).2.1) :=
  ⟨by decide, (c3_ranking_amended 10 10 10 10 10).2.2.2.2 _ (by decide)⟩

/-- A CheckinRecord, the snapshot written to st.session_state.checkin
under today's date key (app.py:443-451).  The created_at wall-clock
timestamp is outside the embedding and omitted; every other field of the
Python dict is present. -/
structure CheckinRecord where
  date : String
  score : Nat
  per_scores : List (Category × Nat)
  completion : Completion
  mood : Nat
  note : String
deriving DecidableEq

/-- A history row {"date", "achievement", "mood"} (app.py:297). -/
structure HistoryRow where
  date : String
  achievement : Nat
  mood : Nat
deriving DecidableEq

/-- Python dict read d.get(k): the value stored under the first (unique)
matching key, if any. -/
def dict_get {α : Type} : List (String × α) → String → Option α
  | [], _ => none
  | (k2, v) :: rest, k => if k2 = k then some v else dict_get rest k

/-- Python dict write d[k] = v: replace the value of an existing key in
place, otherwise append the new key at the end. -/
def dict_set {α : Type} : List (String × α) → String → α → List (String × α)
  | [], k, v => [(k, v)]
  | (k2, v2) :: rest, k, v =>
      if k2 = k then (k, v) :: rest else (k2, v2) :: dict_set rest k v

/-- next((i for i, x in enumerate(history) if x.get("date") == TODAY_STR), None)
(app.py:296): index of the first row for the date, if any. -/
def find_date_idx (today : String) : List HistoryRow → Option Nat
  | [] => none
  | x :: rest =>
      if x.date = today then some 0
      else (find_date_idx today rest).map (· + 1)

/-- update_history_if_needed (app.py:293-302): append the row when no row
for today exists, otherwise overwrite the existing row in place. -/
def update_history_if_needed (today : String) (score mood : Nat)
    (history : List HistoryRow) : List HistoryRow :=
  match find_date_idx today history with
  | none => history ++ [⟨today, score, mood⟩]
  | some i => history.set i ⟨today, score, mood⟩

/-- The session state the check-in lifecycle touches (app.py:211-233):
the live DailyInputs, the day-keyed record store st.session_state.checkin,
the history list and the done-today flag. -/
structure AppState where
  live : DailyInputs
  checkin : List (String × CheckinRecord)
  history : List HistoryRow
  checkin_done_today : Bool
deriving DecidableEq

/-- The record snapshot the complete action writes for the given inputs
(app.py:443-451). -/
def checkin_record_of (today : String) (d : DailyInputs) : CheckinRecord :=
  { date := today
    score := (compute_scores d).1
    per_scores := (compute_scores d).2.1
    completion := (compute_scores d).2.2
    mood := d.mood_score
    note := d.daily_note }

/-- The body of the complete-check-in button handler
(render_checkin_actions, app.py:440-453): write/overwrite the
CheckinRecord under today's date, flip the done flag, and update the
history through update_history_if_needed. -/
def complete_checkin (today : String) (s : AppState) : AppState :=
  { s with
    checkin := dict_set s.checkin today (checkin_record_of today s.live)
    checkin_done_today := true
    history := update_history_if_needed today (compute_scores s.live).1
      s.live.mood_score s.history }

/-- A sequence of complete-check-in actions on the same date, each fired
on the live inputs current at that action. -/
def run_checkins (today : String) (s : AppState) : List DailyInputs → AppState
  | [] => s
  | d :: ds => run_checkins today (complete_checkin today { s with live := d }) ds

/-- Number of records stored under a date key. -/
def checkin_count (d : String) (c : List (String × CheckinRecord)) : Nat :=
  (c.filter fun p => p.1 = d).length

/-- Number of history rows carrying a date. -/
def history_count (d : String) (h : List HistoryRow) : Nat :=
  (h.filter fun x => x.date = d).length

/-- The habit-map gate of render_ai_report (app.py:543-566): when the
done-today flag is false the report section bails out with the not-ready
notice before any report can be generated; otherwise the habits dict fed
to generate_report is rebuilt from the completion map of the stored
record checkin.get(TODAY_STR, {}), every entry defaulting to
bool(None) = False when the record or map is missing. -/
inductive ReportGate
  | notReady
  | ready (habits : Completion)
deriving DecidableEq

/-- report_gate models the precondition check at app.py:546-548 plus the
habits construction at app.py:557-566. -/
def report_gate (today : String) (s : AppState) : ReportGate :=
  if s.checkin_done_today = false then ReportGate.notReady
  else
    ReportGate.ready
      (match dict_get s.checkin today with
       | some record => record.completion
       | none => ⟨false, false, false, false, false⟩)

/-- C5: while the done-today flag is false the report section signals
not-ready and produces no report; while it is true the habit map handed
to report generation is the stored CheckinRecord's completion map for
today's date, and it is unaffected by any edit of the live inputs made
after the check-in fired. -/
theorem c5_report_gate (today : String) (s : AppState) (record : CheckinRecord) :
    (s.checkin_done_today = false → report_gate today s = ReportGate.notReady) ∧
    (s.checkin_done_today = true → dict_get s.checkin today = some record →
      report_gate today s = ReportGate.ready record.completion) ∧
    (∀ live2 : DailyInputs,
      report_gate today { s with live := live2 } = report_gate today s) := by
  refine ⟨?_, ?_, ?_⟩
  · intro h
    simp [report_gate, h]
  · intro h hget
    simp [report_gate, h, hget]
  · intro live2
    rfl

/-- C5 witness: the gate evaluated on a concrete open state and a
concrete closed state holding a stored record. -/
theorem c5_witness :
    report_gate "2026-10-12"
      { live := ⟨0, 0, 0, .h7, .medium, true, .t7, ∅, 6, ""⟩,
        checkin := [], history := [], checkin_done_today := false } =
      ReportGate.notReady ∧
    report_gate "2026-10-12"
      { live := ⟨0, 0, 0, .h7, .medium, true, .t7, ∅, 6, ""⟩,
        checkin := [("2026-10-12",
          ⟨"2026-10-12", 44, [], ⟨false, false, false, true, true⟩, 6, ""⟩)],
        history := [], checkin_done_today := true } =
      ReportGate.ready ⟨false, false, false, true, true⟩ := by
  constructor
  · exact (c5_report_gate "2026-10-12" _
      ⟨"2026-10-12", 44, [], ⟨false, false, false, true, true⟩, 6, ""⟩).1 rfl
  · exact (c5_report_gate "2026-10-12" _
      ⟨"2026-10-12", 44, [], ⟨false, false, false, true, true⟩, 6, ""⟩).2.1 rfl (by decide)

/-- Reading back the key just written into a dict returns the new value. -/
theorem dict_get_set {α : Type} (c : List (String × α)) (k : String) (v : α) :
    dict_get (dict_set c k v) k = some v := by
  induction c with
  | nil => simp [dict_set, dict_get]
  | cons p rest ih =>
    unfold dict_set
    split_ifs with h
    · simp [dict_get]
    · unfold dict_get
      simp [h, ih]

/-- Unfolding step for checkin_count over a cons cell. -/
theorem checkin_count_cons (d : String) (p : String × CheckinRecord)
    (c : List (String × CheckinRecord)) :
    checkin_count d (p :: c) = (if p.1 = d then 1 else 0) + checkin_count d c := by
  by_cases h : p.1 = d <;> simp [checkin_count, List.filter_cons, h]
  omega

/-- Unfolding step for history_count over a cons cell. -/
theorem history_count_cons (d : String) (x : HistoryRow) (h : List HistoryRow) :
    history_count d (x :: h) = (if x.date = d then 1 else 0) + history_count d h := by
  by_cases hx : x.date = d <;> simp [history_count, List.filter_cons, hx]
  omega

/-- Writing a key into a dict that holds it at most once leaves exactly
one entry under that key. -/
theorem dict_set_count (c : List (String × CheckinRecord)) (k : String)
    (v : CheckinRecord) (hc : checkin_count k c ≤ 1) :
    checkin_count k (dict_set c k v) = 1 := by
  induction c with
  | nil => simp [dict_set, checkin_count]
  | cons p rest ih =>
    rw [checkin_count_cons] at hc
    unfold dict_set
    split_ifs with h
    · rw [if_pos h] at hc
      have h2 : checkin_count k ((k, v) :: rest) = 1 + checkin_count k rest := by
        rw [checkin_count_cons]
        simp
      omega
    · rw [if_neg h] at hc
      have h2 : checkin_count k (p :: dict_set rest k v) =
          (if p.1 = k then 1 else 0) + checkin_count k (dict_set rest k v) :=
        checkin_count_cons k p (dict_set rest k v)
      rw [h2, if_neg h, ih (by omega)]

/-- When the head row carries today's date, update_history_if_needed
overwrites it in place. -/
theorem update_history_cons_hit (today : String) (score mood : Nat)
    (x : HistoryRow) (rest : List HistoryRow) (hx : x.date = today) :
    update_history_if_needed today score mood (x :: rest) =
      ⟨today, score, mood⟩ :: rest := by
  unfold update_history_if_needed find_date_idx
  rw [if_pos hx]
  rfl

/-- When the head row carries another date, update_history_if_needed
leaves it in front and recurses into the tail. -/
theorem update_history_cons_miss (today : String) (score mood : Nat)
    (x : HistoryRow) (rest : List HistoryRow) (hx : ¬ x.date = today) :
    update_history_if_needed today score mood (x :: rest) =
      x :: update_history_if_needed today score mood rest := by
  unfold update_history_if_needed
  conv_lhs => rw [find_date_idx]
  rw [if_neg hx]
  cases hfind : find_date_idx today rest
  · simp [hfind]
  · simp [hfind]

/-- After update_history_if_needed on a history holding at most one row
for today, the rows for today are exactly the single fresh row. -/
theorem update_history_filter (today : String) (score mood : Nat)
    (h : List HistoryRow) (hcount : history_count today h ≤ 1) :
    (update_history_if_needed today score mood h).filter
      (fun x => x.date = today) = [⟨today, score, mood⟩] := by
  induction h with
  | nil =>
    simp [update_history_if_needed, find_date_idx, List.filter_cons]
  | cons x rest ih =>
    rw [history_count_cons] at hcount
    by_cases hx : x.date = today
    · rw [update_history_cons_hit today score mood x rest hx]
      rw [if_pos hx] at hcount
      have h0 : history_count today rest = 0 := by omega
      have hnil : rest.filter (fun x => x.date = today) = [] :=
        List.eq_nil_of_length_eq_zero h0
      rw [List.filter_cons]
      simp [hnil]
    · rw [update_history_cons_miss today score mood x rest hx]
      rw [if_neg hx] at hcount
      rw [List.filter_cons]
      have hrec := ih (by omega)
      simp [hx, hrec]

/-- One-row count followed from the filter characterization. -/
theorem update_history_count (today : String) (score mood : Nat)
    (h : List HistoryRow) (hcount : history_count today h ≤ 1) :
    history_count today (update_history_if_needed today score mood h) = 1 := by
  unfold history_count
  rw [update_history_filter today score mood h hcount]
  rfl

/-- C4: after every non-empty sequence of complete-check-in actions on
the same calendar date — starting from a state holding at most one record
and one history row for that date — the day-keyed record store contains
exactly one CheckinRecord for the date, equal to the snapshot of the
inputs at the last action, and the history list contains exactly one row
for the date, equal to the last snapshot's score and mood: a repeated
action replaces the existing record and history row in place, never
appending a duplicate. -/
theorem c4_one_record_per_date (today : String) (dlast : DailyInputs) :
    ∀ (ds : List DailyInputs) (s : AppState),
      ds.getLast? = some dlast →
      checkin_count today s.checkin ≤ 1 →
      history_count today s.history ≤ 1 →
      checkin_count today (run_checkins today s ds).checkin = 1 ∧
      dict_get (run_checkins today s ds).checkin today =
        some (checkin_record_of today dlast) ∧
      history_count today (run_checkins today s ds).history = 1 ∧
      (run_checkins today s ds).history.filter (fun x => x.date = today) =
        [⟨today, (compute_scores dlast).1, dlast.mood_score⟩]
  | [], _, hlast, _, _ => by simp at hlast
  | [d], s, hlast, hc, hh => by
      simp only [List.getLast?_singleton, Option.some.injEq] at hlast
      subst hlast
      refine ⟨dict_set_count _ _ _ hc, dict_get_set _ _ _,
        update_history_count _ _ _ _ hh, update_history_filter _ _ _ _ hh⟩
  | d :: d2 :: ds3, s, hlast, hc, hh => by
      rw [List.getLast?_cons_cons] at hlast
      show checkin_count today (run_checkins today
          (complete_checkin today { s with live := d }) (d2 :: ds3)).checkin = 1 ∧ _
      exact c4_one_record_per_date today dlast (d2 :: ds3)
        (complete_checkin today { s with live := d }) hlast
        (by rw [show (complete_checkin today { s with live := d }).checkin =
              dict_set s.checkin today (checkin_record_of today d) from rfl]
            exact Nat.le_of_eq (dict_set_count _ _ _ hc))
        (by rw [show (complete_checkin today { s with live := d }).history =
              update_history_if_needed today (compute_scores d).1 d.mood_score
                s.history from rfl]
            exact Nat.le_of_eq (update_history_count _ _ _ _ hh))

/-- C4 witness: two successive complete actions on the same date from an
empty session; the store and the history each hold exactly the second
snapshot. -/
theorem c4_witness :
    ([⟨0, 0, 0, .h7, .medium, true, .t7, ∅, 6, ""⟩,
      ⟨8, 30, 4, .h8, .good, true, .t6, ∅, 9, "done"⟩] :
        List DailyInputs).getLast? =
      some ⟨8, 30, 4, .h8, .good, true, .t6, ∅, 9, "done"⟩ ∧
    checkin_count "2026-10-12"
      (run_checkins "2026-10-12"
        { live := ⟨0, 0, 0, .h7, .medium, true, .t7, ∅, 6, ""⟩,
          checkin := [], history := [], checkin_done_today := false }
        [⟨0, 0, 0, .h7, .medium, true, .t7, ∅, 6, ""⟩,
         ⟨8, 30, 4, .h8, .good, true, .t6, ∅, 9, "done"⟩]).checkin = 1 ∧
    history_count "2026-10-12"
      (run_checkins "2026-10-12"
        { live := ⟨0, 0, 0, .h7, .medium, true, .t7, ∅, 6, ""⟩,
          checkin := [], history := [], checkin_done_today := false }
        [⟨0, 0, 0, .h7, .medium, true, .t7, ∅, 6, ""⟩,
         ⟨8, 30, 4, .h8, .good, true, .t6, ∅, 9, "done"⟩]).history = 1 := by
  have h := c4_one_record_per_date "2026-10-12"
    ⟨8, 30, 4, .h8, .good, true, .t6, ∅, 9, "done"⟩
    [⟨0, 0, 0, .h7, .medium, true, .t7, ∅, 6, ""⟩,
     ⟨8, 30, 4, .h8, .good, true, .t6, ∅, 9, "done"⟩]
    { live := ⟨0, 0, 0, .h7, .medium, true, .t7, ∅, 6, ""⟩,
      checkin := [], history := [], checkin_done_today := false }
    (by rfl) (by decide) (by decide)
  exact ⟨by rfl, h.1, h.2.2.1⟩

/-- The raw session values compute_scores actually reads: the three
bucket fields are plain strings as stored in st.session_state, and the
wake-routine set only enters through its size. -/
structure RawDailyInputs where
  water_cups : Nat
  exercise_minutes : Nat
  study_pomodoros : Nat
  sleep_hours : String
  sleep_quality : String
  wake_success : Bool
  wake_time : String
  wake_routines_count : Nat

/-- The sleep_base dict literal with its string keys (app.py:249). -/
def sleep_base_table : List (String × Nat) :=
  [("5↓", 5), ("6", 10), ("7", 20), ("8", 20), ("9+", 15)]

/-- The sleep_quality_bonus dict literal (app.py:250). -/
def sleep_quality_table : List (String × Nat) :=
  [("😪 낮음", 0), ("🙂 보통", 2), ("😴 좋음", 4)]

/-- The wake_time_score dict literal (app.py:253). -/
def wake_time_table : List (String × Nat) :=
  [("🌅 6시대", 20), ("☀️ 7시대", 18), ("☁️ 8시대", 12), ("🌤️ 9시+", 8)]

/-- The radio options for 수면시간 (app.py:389). -/
def sleep_hours_options : List String := ["5↓", "6", "7", "8", "9+"]

/-- The radio options for 숙면감 (app.py:391). -/
def sleep_quality_options : List String := ["😪 낮음", "🙂 보통", "😴 좋음"]

/-- The radio options for 기상 시간대 (app.py:397). -/
def wake_time_options : List String := ["🌅 6시대", "☀️ 7시대", "☁️ 8시대", "🌤️ 9시+"]

/-- compute_scores over the raw string-keyed session values: each Python
dict subscript d[key] raises KeyError when the key is absent, modelled
by the Option bind; none plays the role of the raised error. -/
def compute_scores_raw (i : RawDailyInputs) :
    Option (Nat × List (Category × Nat) × Completion) := do
  let ws := water_score i.water_cups
  let es := exercise_score i.exercise_minutes
  let ss := study_score i.study_pomodoros
  let sb ← dict_get sleep_base_table i.sleep_hours
  let qb ← dict_get sleep_quality_table i.sleep_quality
  let sl := min (sb + qb) 20
  let wt ← dict_get wake_time_table i.wake_time
  let wk := if i.wake_success then min (wt + i.wake_routines_count) 20 else 0
  let total := ws + es + ss + sl + wk
  pure (total,
    [(Category.water, ws), (Category.exercise, es), (Category.study, ss),
     (Category.sleep, sl), (Category.wake, wk)],
    { water := decide (i.water_cups ≥ water_goal)
      exercise := decide (i.exercise_minutes ≥ 20)
      study := decide (i.study_pomodoros ≥ 1)
      sleep := decide (sl ≥ 15)
      wake := i.wake_success })

/-- C9: for every raw input whose sleep-duration, sleep-quality and
wake-time strings are among the enumerated radio options, every lookup
succeeds and compute_scores_raw returns a value — the KeyError branch is
unreachable on the enumerated domain. -/
theorem c9_scoring_total (i : RawDailyInputs)
    (h1 : i.sleep_hours ∈ sleep_hours_options)
    (h2 : i.sleep_quality ∈ sleep_quality_options)
    (h3 : i.wake_time ∈ wake_time_options) :
    (compute_scores_raw i).isSome = true := by
  obtain ⟨wc, em, sp, sh, sq, ws, wt, wrc⟩ := i
  simp only [sleep_hours_options, sleep_quality_options, wake_time_options,
    List.mem_cons, List.not_mem_nil, or_false] at h1 h2 h3
  rcases h1 with rfl | rfl | rfl | rfl | rfl <;>
    rcases h2 with rfl | rfl | rfl <;>
    rcases h3 with rfl | rfl | rfl | rfl <;>
    rfl

/-- C9 witness: the totality fact at one concrete enumerated input. -/
theorem c9_witness :
    (compute_scores_raw ⟨6, 20, 2, "7", "🙂 보통", true, "☀️ 7시대", 1⟩).isSome
      = true :=
  c9_scoring_total ⟨6, 20, 2, "7", "🙂 보통", true, "☀️ 7시대", 1⟩
    (by decide) (by decide) (by decide)

/-- The ➖ button handler: st.session_state.water_cups =
max(0, st.session_state.water_cups - 1) (app.py:348-349).  The counter
is a Python int, modelled as Int so that the clamps are meaningful. -/
def water_minus (c : Int) : Int := max 0 (c - 1)

/-- The ➕ button handler: st.session_state.water_cups =
min(water_goal, st.session_state.water_cups + 1) (app.py:350-351). -/
def water_plus (c : Int) : Int := min 8 (c + 1)

/-- Round a/b to nearest with ties to even over Int, with Python floor
semantics for the quotient. -/
def round_half_even_int (a b : Int) : Int :=
  if 2 * (a - b * Int.fdiv a b) < b then Int.fdiv a b
  else if b < 2 * (a - b * Int.fdiv a b) then Int.fdiv a b + 1
  else if Int.fdiv a b % 2 = 0 then Int.fdiv a b else Int.fdiv a b + 1

/-- The water sub-score over the Int-valued counter, exactly as the
source computes it: min with 20 and no lower clamp (app.py:245). -/
def water_score_int (c : Int) : Int :=
  min (round_half_even_int (5 * c) 2) 20

/-- Session states of the water counter: it starts at 0 (app.py:214) and
is only ever changed by the two clamped button handlers. -/
inductive WaterReachable : Int → Prop
  | start : WaterReachable 0
  | minus {c : Int} : WaterReachable c → WaterReachable (water_minus c)
  | plus {c : Int} : WaterReachable c → WaterReachable (water_plus c)

/-- C10: in every reachable session state the water-cup counter lies in
[0, 8]; consequently the completion test water_cups >= 8 holds exactly
when water_cups = 8, and the water sub-score is non-negative without any
lower clamp. -/
theorem c10_water_counter_clamped (c : Int) (h : WaterReachable c) :
    0 ≤ c ∧ c ≤ 8 ∧ (8 ≤ c ↔ c = 8) ∧ 0 ≤ water_score_int c := by
  have hb : 0 ≤ c ∧ c ≤ 8 := by
    induction h with
    | start => omega
    | minus _ ih => unfold water_minus; omega
    | plus _ ih => unfold water_plus; omega
  refine ⟨hb.1, hb.2, by omega, ?_⟩
  obtain ⟨h1, h2⟩ := hb
  interval_cases c <;> decide

/-- C10 witness: the invariant evaluated after one increment from the
initial state. -/
theorem c10_witness :
    (0 : Int) ≤ 1 ∧ (1 : Int) ≤ 8 ∧ ((8 : Int) ≤ 1 ↔ (1 : Int) = 8) ∧
      (0 : Int) ≤ water_score_int 1 := by
  have h1 : WaterReachable (water_plus 0) := WaterReachable.plus WaterReachable.start
  have h2 : water_plus 0 = 1 := by decide
  exact c10_water_counter_clamped 1 (h2 ▸ h1)
